import Mathlib

/-!
Shallow embedding of
`airbyte-integrations/connectors/source-facebook-marketing/source_facebook_marketing/streams/async_job.py`.

Modelling conventions, used uniformly below:
- Dates and instants are day numbers / tick counts (`Nat`); `pendulum.now()` is an explicit
  `now : Nat` argument of every operation that reads the clock.
- Remote interaction is an explicit oracle argument: `fetch : Nat → AdReportRun` models a
  synchronous `AdReportRun.api_get()` keyed by `report_run_id`; `transport` models one batched
  round trip, returning `none` for a transport-level failure of a call;
  `getInsightsSync : Params → List Nat` models the synchronous probe
  `edge_object.get_insights(params=...)`, each row reduced to its `campaign_id`.
- Python exceptions are `Except PyError`: an `.error` result carries no state, matching a raise
  that happens before any field assignment of the mutated object.
- Logging statements are modelled as effect free (spec section 6 places logging out of scope and
  requires that it never throws or alters state).
- Network activity is recorded in a `List NetEvent` trace so that claims about the absence of
  network interaction and about enqueue-versus-immediate calls are statable.
-/

set_option linter.unusedVariables false

/-- Async job statuses (the `Status` enum of the source, lines 27-35). -/
inductive Status where
  | COMPLETED
  | FAILED
  | SKIPPED
  | STARTED
  | RUNNING
  | NOT_STARTED
deriving DecidableEq, Repr

/-- Recursion kernel of `chunks`: `fuel` is a structural-recursion bound, instantiated with
`data.length` below; it never runs out, because every step drops at least one element. -/
def chunksAux (fuel : Nat) (data : List α) (n : Nat) : List (List α) :=
  match fuel, data, n with
  | _, _, 0 => []
  | _, [], _ => []
  | 0, _ :: _, _ + 1 => []
  | f + 1, a :: as, m + 1 => (a :: as).take (m + 1) :: chunksAux f ((a :: as).drop (m + 1)) (m + 1)

/-- Yield successive n-sized chunks from `data` (the `chunks` helper, source lines 21-24).
The program only ever calls it with `n = 50`; for `n = 0` Python `range` would raise
`ValueError`, which the model renders as the empty list of chunks. -/
def chunks (data : List α) (n : Nat) : List (List α) :=
  chunksAux data.length data n

/-- Closed date interval of a job (`pendulum.Period`), start and end as day numbers. -/
structure Period where
  start : Nat
  stop : Nat
deriving DecidableEq, Repr

/-- Parsed snapshot of the remote `AdReportRun` handle: the fields the engine reads
(`report_run_id`, `async_status`, `async_percent_completion`). -/
structure AdReportRun where
  reportRunId : Nat
  asyncStatus : Status
  asyncPercentCompletion : Nat := 0
deriving DecidableEq, Repr

/-- The remote entity a report is scoped to: `AdAccount` or `Campaign(pk)`. -/
inductive EdgeObject where
  | adAccount (id : Nat)
  | campaign (id : Nat)
deriving DecidableEq, Repr

/-- Job parameter mapping. The dict keys the engine touches are explicit fields
(`time_range.since`, `time_range.until`, `time_increment`, `fields`, `level`, `breakdowns`);
every other caller-supplied entry is carried opaquely in `rest`. `time_range` is always
present after `InsightAsyncJob.__init__`, so its two components are plain values. -/
structure Params where
  timeRangeSince : Nat := 0
  timeRangeUntil : Nat := 0
  timeIncrement : Option Nat := none
  fields : List String := []
  level : Option String := none
  breakdowns : List String := []
  rest : List (String × Nat) := []
deriving DecidableEq, Repr

/-- Python exceptions raised by the code, named after the spec taxonomy where it has a name:
`invalidState` is `RuntimeError("...Incorrect usage...")`, `unsupportedOperation` is the
`RuntimeError` of `ParentAsyncJob.split_job`, `typeError` is a Python `TypeError` (missing
required constructor argument), `keyError` is `dict.pop` of an absent key. `loopBound` is a
model artifact only: the fuel of the batch retry loop ran out, where the Python
`while batch:` loop would still be iterating. -/
inductive PyError where
  | invalidState
  | unsupportedOperation
  | typeError
  | keyError
  | loopBound
deriving DecidableEq, Repr

/-- Network interaction trace events: an immediate synchronous `api_get` round trip, the
registration of an `api_get` into a batch context, and one `FacebookAdsApiBatch.execute()`
round trip carrying the listed calls. -/
inductive NetEvent where
  | syncGet (runId : Nat)
  | batchEnqueue (runId : Nat)
  | batchExecute (runIds : List Nat)
deriving DecidableEq, Repr

/-- True exactly on an immediate synchronous `api_get` event. -/
def NetEvent.isSync : NetEvent → Bool
  | .syncGet _ => true
  | _ => false

/-- State of an `InsightAsyncJob` (source lines 148-171, plus the `AsyncJob` base fields).
`job` is `_job` (the remote handle, absent before start), `failed` is `_failed`,
`attemptNumber` starts at 1. -/
structure InsightAsyncJob where
  edgeObject : EdgeObject
  interval : Period
  params : Params
  attemptNumber : Nat := 1
  job : Option AdReportRun := none
  startTime : Option Nat := none
  finishTime : Option Nat := none
  failed : Bool := false
deriving DecidableEq, Repr

/-- Constructor `InsightAsyncJob.__init__` (source lines 153-171). `interval?` models the
`interval` keyword argument that is forwarded through `**kwargs` to `AsyncJob.__init__`,
which declares it with no default: a call that omits it raises `TypeError` before any field
is set. On success the params dict is copied and its `time_range` entry is overwritten from
the interval. -/
def InsightAsyncJob.mk_init (edgeObject : EdgeObject) (params : Params)
    (interval? : Option Period) : Except PyError InsightAsyncJob :=
  match interval? with
  | none => .error .typeError
  | some interval =>
    let initParams :=
      { params with timeRangeSince := interval.start, timeRangeUntil := interval.stop }
    .ok { edgeObject := edgeObject, interval := interval, params := initParams }

/-- Property `completed` (source lines 232-239): true once `_finish_time` is set. -/
def InsightAsyncJob.completed (s : InsightAsyncJob) : Bool :=
  s.finishTime.isSome

/-- Method `start` (source lines 195-208): raises on a job that already has a remote handle,
otherwise stores the handle returned by the asynchronous `get_insights` submission (the
`newRun` oracle) and records the start instant. -/
def InsightAsyncJob.start (s : InsightAsyncJob) (newRun : AdReportRun) (now : Nat) :
    Except PyError InsightAsyncJob :=
  if s.job.isSome then .error .invalidState
  else .ok { s with job := some newRun, startTime := some now }

/-- Method `restart` (source lines 210-221): raises unless the job has a handle and has failed;
otherwise clears the handle, the failed flag and both timestamps, increments
`_attempt_number`, and calls `start` again. -/
def InsightAsyncJob.restart (s : InsightAsyncJob) (newRun : AdReportRun) (now : Nat) :
    Except PyError InsightAsyncJob :=
  if s.job.isNone || !s.failed then .error .invalidState
  else
    let reset :=
      { s with job := none, failed := false, startTime := none, finishTime := none,
               attemptNumber := s.attemptNumber + 1 }
    InsightAsyncJob.start reset newRun now

/-- Method `_check_status` (source lines 274-297): reads `async_status` from the stored handle
(the source would raise reading `self._job["async_status"]` were the handle absent, rendered
as `typeError`). `COMPLETED` records the finish instant; `FAILED` and `SKIPPED` record the
finish instant and set the failed flag; any other status leaves the job unchanged and
reports `false`. -/
def InsightAsyncJob.check_status (s : InsightAsyncJob) (now : Nat) :
    Except PyError (InsightAsyncJob × Bool) :=
  match s.job with
  | none => .error .typeError
  | some run =>
    if run.asyncStatus = Status.COMPLETED then
      .ok ({ s with finishTime := some now }, true)
    else if run.asyncStatus = Status.FAILED ∨ run.asyncStatus = Status.SKIPPED then
      .ok ({ s with finishTime := some now, failed := true }, true)
    else
      .ok (s, false)

/-- Batch success callback `_batch_success_handler` (source lines 246-249): the response is
parsed over the stored handle (modelled as replacing the snapshot, spec section 9) and the
terminal-status detection of `_check_status` runs. -/
def InsightAsyncJob.batch_success_handler (s : InsightAsyncJob) (response : AdReportRun)
    (now : Nat) : Except PyError InsightAsyncJob :=
  (InsightAsyncJob.check_status { s with job := some response } now).map (fun r => r.1)

/-- Batch failure callback `_batch_failure_handler` (source lines 251-253): logs only, job
state is untouched. -/
def InsightAsyncJob.batch_failure_handler (s : InsightAsyncJob) : InsightAsyncJob := s

/-- Result of one leaf `update_job` call: the (possibly unchanged) job state, the call
registered into the batch context if any (`some runId` when `api_get(batch=...)` was
enqueued), and the network trace. -/
structure UpdateOutcome where
  state : InsightAsyncJob
  enqueuedCall : Option Nat
  trace : List NetEvent
deriving DecidableEq, Repr

/-- Method `update_job` of the leaf (source lines 255-272): raises when the job was never
started; returns immediately (no network, nothing enqueued) when already completed; with a
batch context (`batchGiven = true`) registers the status check into the batch and leaves the
state untouched; without one performs an immediate synchronous `api_get` followed by
`_check_status`. -/
def InsightAsyncJob.update_job (s : InsightAsyncJob) (batchGiven : Bool)
    (fetch : Nat → AdReportRun) (now : Nat) : Except PyError UpdateOutcome :=
  match s.job with
  | none => .error .invalidState
  | some run =>
    if s.completed then
      .ok { state := s, enqueuedCall := none, trace := [] }
    else if batchGiven then
      .ok { state := s, enqueuedCall := some run.reportRunId,
            trace := [NetEvent.batchEnqueue run.reportRunId] }
    else
      match InsightAsyncJob.check_status { s with job := some (fetch run.reportRunId) } now with
      | .error e => .error e
      | .ok (s', _) =>
        .ok { state := s', enqueuedCall := none, trace := [NetEvent.syncGet run.reportRunId] }

/-- Method `get_result` of the leaf (source lines 299-303): raises when the job was never
started or has failed, otherwise returns the result rows of the remote handle (the
`fetchRows` oracle, keyed by `report_run_id`). -/
def InsightAsyncJob.get_result (s : InsightAsyncJob) (fetchRows : Nat → List Nat) :
    Except PyError (List Nat) :=
  match s.job with
  | none => .error .invalidState
  | some run =>
    if s.failed then .error .invalidState
    else .ok (fetchRows run.reportRunId)

/-- The probe parameters built by `split_job` (source lines 177-182): a deep copy of the job
params with `fields=["campaign_id"]`, `level="campaign"`, the `time_range.since` widened
backward by the 28+1 day attribution look-back, and `time_increment` removed. -/
def InsightAsyncJob.campaignParams (s : InsightAsyncJob) : Params :=
  { s.params with
    fields := ["campaign_id"],
    level := some ("campaign"),
    timeRangeSince := s.interval.start - 29,
    timeIncrement := none }

/-- State of a `ParentAsyncJob` (source lines 95-101). The source types the children as
`List[AsyncJob]`; the only place the program constructs a composite is
`InsightAsyncJob.split_job`, whose children are leaf jobs, and composites are never split
again (`split_job` on a composite raises), so children are modelled as leaf jobs. -/
structure ParentAsyncJob where
  interval : Period
  attemptNumber : Nat := 1
  jobs : List InsightAsyncJob
deriving DecidableEq, Repr

/-- Property `completed` of the composite (source lines 115-118): all children completed.
A pure aggregate: no clock, no oracle, no network trace. -/
def ParentAsyncJob.completed (p : ParentAsyncJob) : Bool :=
  p.jobs.all fun job => job.completed

/-- Property `failed` of the composite (source lines 120-123): any child failed.
A pure aggregate: no clock, no oracle, no network trace. -/
def ParentAsyncJob.failed (p : ParentAsyncJob) : Bool :=
  p.jobs.any fun job => job.failed

/-- Method `get_result` of the composite (source lines 138-141): concatenation, in child
order, of the result sequences of the children. -/
def ParentAsyncJob.get_result (p : ParentAsyncJob) (fetchRows : Nat → List Nat) :
    Except PyError (List Nat) :=
  (p.jobs.mapM fun job => InsightAsyncJob.get_result job fetchRows).map List.flatten

/-- Method `split_job` of the composite (source lines 143-145): always raises. -/
def ParentAsyncJob.split_job (p : ParentAsyncJob) : Except PyError ParentAsyncJob :=
  .error .unsupportedOperation

/-- Method `split_job` of the leaf (source lines 173-193). `campaign_params.pop("time_increment")`
raises `KeyError` when the key is absent. The probe runs synchronously and the distinct
campaign ids are collected (`set(...)`, modelled as `List.dedup`, keeping first occurrences).
One child job is then built per id — the source passes `api`, `edge_object=Campaign(pk)` and
`params=self._params` but no `interval` keyword, hence `none` below — and the children are
wrapped in a fresh composite over the interval of the original job. -/
def InsightAsyncJob.split_job (s : InsightAsyncJob)
    (getInsightsSync : Params → List Nat) : Except PyError ParentAsyncJob :=
  if s.params.timeIncrement.isNone then .error .keyError
  else
    let campaign_ids := (getInsightsSync s.campaignParams).dedup
    match campaign_ids.mapM
        (fun pk => InsightAsyncJob.mk_init (EdgeObject.campaign pk) s.params none) with
    | .error e => .error e
    | .ok jobs => .ok { interval := s.interval, jobs := jobs }

/-- One `FacebookAdsApiBatch.execute()` round trip over the pending calls: a call answered by
the transport fires the success handler of its job, a transport failure fires the failure
handler (log only) and the call is kept for the retry batch that `execute` returns. Pending
calls are (child index, report run id) pairs; children are addressed by index so the
handlers can write the updated job back into the composite. -/
def executeBatch (children : List InsightAsyncJob) (pending : List (Nat × Nat))
    (transport : Nat → Nat → Option AdReportRun) (round : Nat) (now : Nat) :
    Except PyError (List InsightAsyncJob × List (Nat × Nat)) :=
  match pending with
  | [] => .ok (children, [])
  | (idx, runId) :: rest =>
    match children.get? idx with
    | none => .error .typeError
    | some child =>
      match transport round runId with
      | some response =>
        match InsightAsyncJob.batch_success_handler child response now with
        | .error e => .error e
        | .ok child' => executeBatch (children.set idx child') rest transport round now
      | none =>
        match executeBatch (children.set idx (InsightAsyncJob.batch_failure_handler child))
            rest transport round now with
        | .error e => .error e
        | .ok (cs, retry) => .ok (cs, (idx, runId) :: retry)

/-- The drain loop `while batch: batch = batch.execute()` (source lines 133-136). `none`
models the Python variable holding `None`; `some pending` models a live
`FacebookAdsApiBatch`, whose truthiness is `pending ≠ []` (the class defines `__len__`).
`execute` returns `none` when no call failed, else a fresh batch holding the failed calls.
`fuel` bounds the rounds; exhaustion is the model artifact `loopBound`. The final value of
the `batch` variable, the round counter and the trace of executed rounds are returned. -/
def driveBatch (fuel : Nat) (children : List InsightAsyncJob)
    (batch : Option (List (Nat × Nat))) (transport : Nat → Nat → Option AdReportRun)
    (round : Nat) (now : Nat) :
    Except PyError (List InsightAsyncJob × Option (List (Nat × Nat)) × Nat × List NetEvent) :=
  match batch with
  | none => .ok (children, none, round, [])
  | some [] => .ok (children, some [], round, [])
  | some ((idx, runId) :: pendingRest) =>
    match fuel with
    | 0 => .error .loopBound
    | fuel' + 1 =>
      match executeBatch children ((idx, runId) :: pendingRest) transport round now with
      | .error e => .error e
      | .ok (children', retry) =>
        match driveBatch fuel' children' (if retry.isEmpty then none else some retry)
            transport (round + 1) now with
        | .error e => .error e
        | .ok (cs, b, r, tr) =>
          .ok (cs, b, r, NetEvent.batchExecute (((idx, runId) :: pendingRest).map Prod.snd) :: tr)

/-- The inner `for job in jobs: job.update_job(batch=batch)` over one chunk of child indices
(source lines 130-131). With a live batch (`some pending`) every enqueued call is appended
to it; with `batch = None` each leaf update degrades to an immediate synchronous call. -/
def updateChunk (children : List InsightAsyncJob) (chunk : List Nat)
    (batch : Option (List (Nat × Nat))) (fetch : Nat → AdReportRun) (now : Nat) :
    Except PyError (List InsightAsyncJob × Option (List (Nat × Nat)) × List NetEvent) :=
  match chunk with
  | [] => .ok (children, batch, [])
  | idx :: rest =>
    match children.get? idx with
    | none => .error .typeError
    | some child =>
      match child.update_job batch.isSome fetch now with
      | .error e => .error e
      | .ok outcome =>
        let children' := children.set idx outcome.state
        let batch' :=
          match outcome.enqueuedCall with
          | some runId => batch.map fun pending => pending ++ [(idx, runId)]
          | none => batch
        match updateChunk children' rest batch' fetch now with
        | .error e => .error e
        | .ok (cs, b, tr) => .ok (cs, b, outcome.trace ++ tr)

/-- The outer `for jobs in chunks(unfinished_jobs, 50)` loop of the composite update (source
lines 129-136): per chunk, enqueue (or synchronously perform) every update, then run the
drain loop; the `batch` variable and the round counter flow from one chunk to the next
exactly as the Python local does. -/
def updateChunks (children : List InsightAsyncJob) (batch : Option (List (Nat × Nat)))
    (chunkList : List (List Nat)) (fetch : Nat → AdReportRun)
    (transport : Nat → Nat → Option AdReportRun) (round : Nat) (now : Nat) (fuel : Nat) :
    Except PyError (List InsightAsyncJob × List NetEvent) :=
  match chunkList with
  | [] => .ok (children, [])
  | chunk :: restChunks =>
    match updateChunk children chunk batch fetch now with
    | .error e => .error e
    | .ok (children', batch', tr1) =>
      match driveBatch fuel children' batch' transport round now with
      | .error e => .error e
      | .ok (children'', batch'', round', tr2) =>
        match updateChunks children'' batch'' restChunks fetch transport round' now fuel with
        | .error e => .error e
        | .ok (cs, tr3) => .ok (cs, tr1 ++ tr2 ++ tr3)

/-- Method `update_job` of the composite (source lines 125-136). The `batch` argument is
discarded on the first line (`batch = self._api.new_batch()`), replaced by one fresh empty
batch context; the children are filtered to the not-yet-completed ones (as indices, so the
callbacks can write back), chunked by 50, and processed by the chunk loop above. -/
def ParentAsyncJob.update_job (p : ParentAsyncJob) (batch : Option (List (Nat × Nat)))
    (fetch : Nat → AdReportRun) (transport : Nat → Nat → Option AdReportRun)
    (now : Nat) (fuel : Nat) : Except PyError (ParentAsyncJob × List NetEvent) :=
  let unfinishedIdx := (List.range p.jobs.length).filter fun i =>
    match p.jobs.get? i with
    | some job => !job.completed
    | none => false
  match updateChunks p.jobs (some []) (chunks unfinishedIdx 50) fetch transport 0 now fuel with
  | .error e => .error e
  | .ok (children, tr) => .ok ({ p with jobs := children }, tr)

/-! Concrete inputs used by the evaluation of claim C1. -/

/-- A started, not-yet-completed leaf child with report run id `i`. -/
def c1Child (i : Nat) : InsightAsyncJob :=
  { edgeObject := EdgeObject.adAccount 1, interval := ⟨0, 7⟩, params := {},
    job := some ⟨i, Status.STARTED, 0⟩, startTime := some 0 }

/-- A composite of 51 not-yet-completed children. -/
def c1Composite : ParentAsyncJob :=
  { interval := ⟨0, 7⟩, jobs := (List.range 51).map c1Child }

/-- Oracle for the immediate synchronous `api_get`: reports the job still running. -/
def c1Fetch : Nat → AdReportRun := fun runId => ⟨runId, Status.RUNNING, 60⟩

/-- Transport oracle that answers every batched call successfully (still running). -/
def c1Transport : Nat → Nat → Option AdReportRun := fun _ runId => some ⟨runId, Status.RUNNING, 30⟩

/-- Claim C1 (code bug): on a composite of 51 not-yet-completed children the network trace of
`ParentAsyncJob.update_job` is 50 batch enqueues, one executed batch round, and then an
immediate synchronous `api_get` for child 51. The `batch` local is `None` once the drain loop
of the first chunk finishes, so every child beyond the first chunk of 50 is checked by an
immediate synchronous call, not enqueued into the one fresh batch context as the claim (and
spec sections 4.2 and 4.3) require. -/
theorem c1_second_chunk_degrades_to_sync_calls :
    (ParentAsyncJob.update_job c1Composite none c1Fetch c1Transport 9 4).map
        (fun r => r.2) =
      .ok ((List.range 50).map NetEvent.batchEnqueue ++
        [NetEvent.batchExecute (List.range 50), NetEvent.syncGet 50]) := by
  rfl

/-- Claim C2 (code bug): a leaf whose probe returns the single campaign key 7 does not get a
composite of per-key children carrying the parent interval: `split_job` raises `TypeError`,
because the source builds each child `InsightAsyncJob` without the required `interval`
argument. -/
theorem c2_split_raises_type_error :
    InsightAsyncJob.split_job
      { edgeObject := EdgeObject.adAccount 1, interval := ⟨100, 107⟩,
        params := { timeIncrement := some 1 } }
      (fun _ => [7]) = .error .typeError := by
  rfl

/-- Claim C3: a status observation on a started, not-failed leaf job behaves as specified:
`COMPLETED` sets the finish time and the job becomes completed and non-failed; `FAILED` or
`SKIPPED` sets the finish time and the failed flag; `STARTED` or `RUNNING` changes nothing
(the observation reports `false`, the job stays pollable). -/
theorem c3_check_status_transitions (s : InsightAsyncJob) (run : AdReportRun) (now : Nat)
    (hjob : s.job = some run) (hfail : s.failed = false) :
    (run.asyncStatus = Status.COMPLETED →
      s.check_status now = .ok ({ s with finishTime := some now }, true) ∧
      InsightAsyncJob.completed { s with finishTime := some now } = true ∧
      ({ s with finishTime := some now } : InsightAsyncJob).failed = false) ∧
    (run.asyncStatus = Status.FAILED ∨ run.asyncStatus = Status.SKIPPED →
      s.check_status now = .ok ({ s with finishTime := some now, failed := true }, true) ∧
      InsightAsyncJob.completed { s with finishTime := some now, failed := true } = true ∧
      ({ s with finishTime := some now, failed := true } : InsightAsyncJob).failed = true) ∧
    (run.asyncStatus = Status.STARTED ∨ run.asyncStatus = Status.RUNNING →
      s.check_status now = .ok (s, false)) := by
  refine ⟨fun h => ?_, fun h => ?_, fun h => ?_⟩
  · simp [InsightAsyncJob.check_status, hjob, h, InsightAsyncJob.completed, hfail]
  · rcases h with h | h <;>
      simp [InsightAsyncJob.check_status, hjob, h, InsightAsyncJob.completed]
  · rcases h with h | h <;> simp [InsightAsyncJob.check_status, hjob, h]

/-- Witness for C3: the three transitions evaluated on concrete started jobs. -/
theorem c3_check_status_transitions_witness :
    InsightAsyncJob.check_status
        { edgeObject := EdgeObject.adAccount 1, interval := ⟨0, 7⟩, params := {},
          job := some ⟨9, Status.COMPLETED, 100⟩, startTime := some 0 } 5 =
      .ok ({ edgeObject := EdgeObject.adAccount 1, interval := ⟨0, 7⟩, params := {},
             job := some ⟨9, Status.COMPLETED, 100⟩, startTime := some 0,
             finishTime := some 5 }, true) ∧
    InsightAsyncJob.check_status
        { edgeObject := EdgeObject.adAccount 1, interval := ⟨0, 7⟩, params := {},
          job := some ⟨9, Status.FAILED, 100⟩, startTime := some 0 } 5 =
      .ok ({ edgeObject := EdgeObject.adAccount 1, interval := ⟨0, 7⟩, params := {},
             job := some ⟨9, Status.FAILED, 100⟩, startTime := some 0,
             finishTime := some 5, failed := true }, true) ∧
    InsightAsyncJob.check_status
        { edgeObject := EdgeObject.adAccount 1, interval := ⟨0, 7⟩, params := {},
          job := some ⟨9, Status.RUNNING, 40⟩, startTime := some 0 } 5 =
      .ok ({ edgeObject := EdgeObject.adAccount 1, interval := ⟨0, 7⟩, params := {},
             job := some ⟨9, Status.RUNNING, 40⟩, startTime := some 0 }, false) :=
  ⟨((c3_check_status_transitions _ _ 5 rfl rfl).1 rfl).1,
   ((c3_check_status_transitions _ _ 5 rfl rfl).2.1 (Or.inl rfl)).1,
   (c3_check_status_transitions _ _ 5 rfl rfl).2.2 (Or.inr rfl)⟩

/-- Claim C4: `update_job` on an already-completed leaf job, with or without a batch context,
returns immediately: the state is unchanged, nothing is enqueued, and the network trace is
empty. (The job has a remote handle: a completed job always has one, since completion is
recorded by `_check_status`, which reads the handle.) -/
theorem c4_update_completed_is_noop (s : InsightAsyncJob) (batchGiven : Bool)
    (fetch : Nat → AdReportRun) (now : Nat)
    (hjob : s.job.isSome = true) (hdone : s.completed = true) :
    s.update_job batchGiven fetch now = .ok { state := s, enqueuedCall := none, trace := [] } := by
  cases hj : s.job with
  | none => simp [hj] at hjob
  | some run => simp [InsightAsyncJob.update_job, hj, hdone]

/-- Witness for C4: a completed job updated with and observably no network event. -/
theorem c4_update_completed_is_noop_witness :
    InsightAsyncJob.update_job
        { edgeObject := EdgeObject.adAccount 1, interval := ⟨0, 7⟩, params := {},
          job := some ⟨2, Status.COMPLETED, 100⟩, startTime := some 0, finishTime := some 3 }
        true (fun runId => ⟨runId, Status.RUNNING, 0⟩) 9 =
      .ok { state := { edgeObject := EdgeObject.adAccount 1, interval := ⟨0, 7⟩, params := {},
                       job := some ⟨2, Status.COMPLETED, 100⟩, startTime := some 0,
                       finishTime := some 3 },
            enqueuedCall := none, trace := [] } :=
  c4_update_completed_is_noop _ true _ 9 rfl rfl

/-- Claim C5: `restart` on a started-and-failed leaf job resets the remote handle and both
timestamps, clears the failed flag, increments the attempt number by exactly 1, and starts
the job again (fresh handle, fresh start instant, no finish instant). -/
theorem c5_restart_resets_and_restarts (s : InsightAsyncJob) (newRun : AdReportRun) (now : Nat)
    (hjob : s.job.isSome = true) (hfailed : s.failed = true) :
    s.restart newRun now =
      .ok { s with job := some newRun, failed := false, startTime := some now,
                   finishTime := none, attemptNumber := s.attemptNumber + 1 } := by
  cases hj : s.job with
  | none => simp [hj] at hjob
  | some run => simp [InsightAsyncJob.restart, hj, hfailed, InsightAsyncJob.start]

/-- Witness for C5: a concrete failed job restarted. -/
theorem c5_restart_resets_and_restarts_witness :
    InsightAsyncJob.restart
        { edgeObject := EdgeObject.adAccount 1, interval := ⟨0, 7⟩, params := {},
          attemptNumber := 2, job := some ⟨4, Status.FAILED, 10⟩, startTime := some 1,
          finishTime := some 2, failed := true }
        ⟨5, Status.STARTED, 0⟩ 11 =
      .ok { edgeObject := EdgeObject.adAccount 1, interval := ⟨0, 7⟩, params := {},
            attemptNumber := 3, job := some ⟨5, Status.STARTED, 0⟩, startTime := some 11,
            finishTime := none, failed := false } :=
  c5_restart_resets_and_restarts _ _ 11 rfl rfl

/-- Claim C6: `restart` on a non-failed leaf job raises `InvalidStateError`, and `start` on an
already-started leaf job raises `InvalidStateError`. In this embedding an error result
returns no modified state: the Python exception is raised before any field assignment, so
the job is unchanged. -/
theorem c6_invalid_transitions (s : InsightAsyncJob) (newRun : AdReportRun) (now : Nat) :
    (s.failed = false → s.restart newRun now = .error .invalidState) ∧
    (s.job.isSome = true → s.start newRun now = .error .invalidState) := by
  constructor
  · intro h; simp [InsightAsyncJob.restart, h]
  · intro h; simp [InsightAsyncJob.start, h]

/-- Witness for C6: one concrete job that is started and non-failed; restarting and starting
it both raise. -/
theorem c6_invalid_transitions_witness :
    InsightAsyncJob.restart
        { edgeObject := EdgeObject.adAccount 1, interval := ⟨0, 7⟩, params := {},
          job := some ⟨4, Status.RUNNING, 10⟩, startTime := some 1 }
        ⟨5, Status.STARTED, 0⟩ 3 = .error .invalidState ∧
    InsightAsyncJob.start
        { edgeObject := EdgeObject.adAccount 1, interval := ⟨0, 7⟩, params := {},
          job := some ⟨4, Status.RUNNING, 10⟩, startTime := some 1 }
        ⟨5, Status.STARTED, 0⟩ 3 = .error .invalidState :=
  ⟨(c6_invalid_transitions _ _ 3).1 rfl, (c6_invalid_transitions _ _ 3).2 rfl⟩

/-- Claim C7: for every composite job, `completed` holds exactly when every child is completed
and `failed` holds exactly when some child failed. Both are pure aggregates: the definitions
take no clock, no oracle and produce no network trace. -/
theorem c7_parent_aggregates (p : ParentAsyncJob) :
    (p.completed = true ↔ ∀ job ∈ p.jobs, job.completed = true) ∧
    (p.failed = true ↔ ∃ job ∈ p.jobs, job.failed = true) := by
  constructor
  · simp [ParentAsyncJob.completed, List.all_eq_true]
  · simp [ParentAsyncJob.failed, List.any_eq_true]

/-- Counterexample to claim C8 as stated: a started, unfinished, non-failed leaf job (so the
job is not finished) on which `get_result` does not raise but returns the rows. -/
theorem c8_counterexample_running_job_returns :
    InsightAsyncJob.completed
        { edgeObject := EdgeObject.adAccount 1, interval := ⟨0, 7⟩, params := {},
          job := some ⟨8, Status.RUNNING, 40⟩, startTime := some 1 } = false ∧
    InsightAsyncJob.get_result
        { edgeObject := EdgeObject.adAccount 1, interval := ⟨0, 7⟩, params := {},
          job := some ⟨8, Status.RUNNING, 40⟩, startTime := some 1 }
        (fun _ => [10, 20]) = .ok [10, 20] :=
  ⟨rfl, rfl⟩

/-- Claim C8 as amended: `get_result` raises `InvalidStateError` exactly when the job never
started (no remote handle) or ended failed; a started, non-failed job — finished or not —
returns the result sequence without error. -/
theorem c8_get_result_error_iff (s : InsightAsyncJob) (fetchRows : Nat → List Nat) :
    (s.get_result fetchRows = .error .invalidState ↔ (s.job = none ∨ s.failed = true)) ∧
    (∀ run, s.job = some run → s.failed = false →
      s.get_result fetchRows = .ok (fetchRows run.reportRunId)) := by
  constructor
  · cases hj : s.job with
    | none => simp [InsightAsyncJob.get_result, hj]
    | some run => cases hf : s.failed <;> simp [InsightAsyncJob.get_result, hj, hf]
  · intro run hj hf
    simp [InsightAsyncJob.get_result, hj, hf]

/-- Witness for C8: the amended statement evaluated on a concrete failed job and a concrete
finished successful job. -/
theorem c8_get_result_error_iff_witness :
    InsightAsyncJob.get_result
        { edgeObject := EdgeObject.adAccount 1, interval := ⟨0, 7⟩, params := {},
          job := some ⟨8, Status.FAILED, 100⟩, startTime := some 1, finishTime := some 2,
          failed := true }
        (fun _ => [10, 20]) = .error .invalidState ∧
    InsightAsyncJob.get_result
        { edgeObject := EdgeObject.adAccount 1, interval := ⟨0, 7⟩, params := {},
          job := some ⟨8, Status.COMPLETED, 100⟩, startTime := some 1, finishTime := some 2 }
        (fun _ => [10, 20]) = .ok [10, 20] :=
  ⟨(c8_get_result_error_iff _ (fun _ => [10, 20])).1.mpr (Or.inr rfl),
   (c8_get_result_error_iff _ (fun _ => [10, 20])).2 ⟨8, Status.COMPLETED, 100⟩ rfl rfl⟩

/-- Claim C9: when the probe yields zero campaign keys, `split_job` succeeds (no child
constructor ever runs), returning a composite with an empty child list that is immediately
completed and whose result sequence is empty. -/
theorem c9_split_zero_keys (s : InsightAsyncJob) (probe : Params → List Nat)
    (fetchRows : Nat → List Nat)
    (hinc : s.params.timeIncrement.isSome = true)
    (hzero : probe s.campaignParams = []) :
    s.split_job probe = .ok { interval := s.interval, jobs := [] } ∧
    ParentAsyncJob.completed { interval := s.interval, jobs := [] } = true ∧
    ParentAsyncJob.get_result { interval := s.interval, jobs := [] } fetchRows = .ok [] := by
  refine ⟨?_, rfl, rfl⟩
  cases hti : s.params.timeIncrement with
  | none => rw [hti] at hinc; simp at hinc
  | some t => simp [InsightAsyncJob.split_job, hti, hzero, List.mapM.loop, pure, Except.pure]

/-- Witness for C9: a concrete leaf with `time_increment` present and a probe returning no
keys. -/
theorem c9_split_zero_keys_witness :
    InsightAsyncJob.split_job
        { edgeObject := EdgeObject.adAccount 1, interval := ⟨100, 107⟩,
          params := { timeIncrement := some 1 } }
        (fun _ => []) = .ok { interval := ⟨100, 107⟩, jobs := [] } ∧
    ParentAsyncJob.completed { interval := ⟨100, 107⟩, jobs := ([] : List InsightAsyncJob) } = true ∧
    ParentAsyncJob.get_result { interval := ⟨100, 107⟩, jobs := ([] : List InsightAsyncJob) }
      (fun _ => [3]) = .ok [] :=
  c9_split_zero_keys
    { edgeObject := EdgeObject.adAccount 1, interval := ⟨100, 107⟩,
      params := { timeIncrement := some 1 } }
    (fun _ => []) (fun _ => [3]) rfl rfl

/-- Claim C10: the composite `update_job` discards the supplied batch context on its first
line (`batch = self._api.new_batch()`), so any two values of the optional batch argument —
including omitting it (`none`) — produce identical behavior and identical final state. -/
theorem c10_parent_update_ignores_batch_argument (p : ParentAsyncJob)
    (b1 b2 : Option (List (Nat × Nat))) (fetch : Nat → AdReportRun)
    (transport : Nat → Nat → Option AdReportRun) (now : Nat) (fuel : Nat) :
    p.update_job b1 fetch transport now fuel = p.update_job b2 fetch transport now fuel := rfl
